import Mathlib

/-!
Verification of the OWZ Prometheus exporter (`build/main.py`) against its
design specification.  The program is embedded shallowly: the HTTP response
handling of `owz_get_dp`, the per-cycle fold over the fixed datapoint
registry, the scheduler loop with its signal handling and sleep logic, and
the startup configuration reading are modelled as pure Lean functions, and
the specified properties are proved (or refuted) about those functions.
-/

/-! ## JSON values and HTTP responses (inputs of `owz_get_dp`) -/

/-- Model of a parsed JSON value, as produced by Python `response.json()`.
Numbers are modelled as rationals; `null` becomes Python `None`. -/
inductive Json where
  | null : Json
  | bool : Bool → Json
  | num : ℚ → Json
  | str : String → Json
  | arr : List Json → Json
  | obj : List (String × Json) → Json

/-- Model of an HTTP response received by `session.get` in `owz_get_dp`:
its status code, and its body parsed as JSON (`none` when the body is not
valid JSON, in which case `response.json()` raises). -/
structure HttpResponse where
  status : Nat
  body : Option Json

/-- Model of Python `float(value)` applied to a parsed JSON value
(`main.py` line 85).  A string is parsed by the supplied string-to-float
parser (the exact numeric grammar of Python `float` is irrelevant to the
claims, so it is a parameter); a JSON number is already numeric; a JSON
bool converts (`float(True) = 1.0`); anything else raises `TypeError`. -/
def pyFloat (strFloat : String → Option ℚ) : Json → Option ℚ
  | Json.num q => some q
  | Json.str s => strFloat s
  | Json.bool b => some (if b then 1 else 0)
  | _ => none

/-- Model of Python `data.get("value")` (`main.py` line 80): raises
`AttributeError` when `data` is not a dict; otherwise returns the value
stored under `"value"`, where both an absent key and a JSON `null` value
give Python `None` (modelled as `Option.none`).  Duplicate keys in the
JSON text follow Python's last-one-wins dict semantics. -/
def pyGetValue : Json → Except Unit (Option Json)
  | Json.obj fields =>
      Except.ok (match (fields.reverse).lookup "value" with
        | some Json.null => none
        | some v => some v
        | none => none)
  | _ => Except.error ()

/-- The `"value"` field of a JSON document as seen by the Python code:
`none` when the document is not an object, the key is absent, or the value
is JSON `null`. -/
def jsonValueField (d : Json) : Option Json :=
  match pyGetValue d with
  | Except.ok r => r
  | Except.error _ => none

/-- Model of `owz_get_dp` (`main.py` lines 70-88) applied to a received
HTTP response.  `response.raise_for_status()` raises exactly for status
codes in `[400, 600)`; then the body is parsed as JSON, the `"value"`
field is extracted, a `None` value raises `ValueError`, and the value is
converted with `float`.  Every raised exception is logged and re-raised,
so the caller observes `Except.error`. -/
def owz_get_dp (strFloat : String → Option ℚ) (resp : HttpResponse) :
    Except Unit ℚ :=
  if 400 ≤ resp.status ∧ resp.status < 600 then Except.error ()
  else
    match resp.body with
    | none => Except.error ()
    | some data =>
      match pyGetValue data with
      | Except.error _ => Except.error ()
      | Except.ok none => Except.error ()
      | Except.ok (some v) =>
        match pyFloat strFloat v with
        | some q => Except.ok q
        | none => Except.error ()

/-! ## The datapoint registry and the per-cycle fold -/

/-- A registered Prometheus gauge: metric name and help text
(`main.py` lines 33-41). -/
structure GaugeSpec where
  name : String
  description : String

/-- The `DATAPOINTS` dict of `main.py` (lines 33-41): a module-level
constant mapping plant item id to its gauge, in insertion order. -/
def DATAPOINTS : List (Nat × GaugeSpec) :=
  [(2420, ⟨"owz_aussentemperatur", "Außentemperatur in °C"⟩),
   (2422, ⟨"owz_vorlauftemperatur_ist_hk1", "Vorlauftemperatur Istwert Heizkreis 1 in °C"⟩),
   (2425, ⟨"owz_vorlauftemperatur_ist_hk2", "Vorlauftemperatur Istwert Heizkreis 2 in °C"⟩),
   (2433, ⟨"owz_trinkwasser_ist_b3", "Trinkwassertemperatur-Istwert Oben (B3) in °C"⟩),
   (2436, ⟨"owz_pufferspeicher_ist_b4", "Pufferspeichertemperatur-Istwert Oben (B4) in °C"⟩),
   (2438, ⟨"owz_ruecklauftemperatur_wp", "Rücklauftemperatur Wärmepumpe in °C"⟩),
   (2440, ⟨"owz_vorlauftemperatur_wp", "Vorlauftemperatur Wärmepumpe in °C"⟩)]

/-- The datapoint ids iterated by each poll cycle, in dict order. -/
def DATAPOINT_IDS : List Nat := DATAPOINTS.map Prod.fst

/-- Gauge storage: the last value `metric.set` stored for each datapoint
id, `none` while a gauge has never been set. -/
def Gauges : Type := Nat → Option ℚ

/-- Setting one gauge (`metric.set(value)`, `main.py` line 120). -/
def setG (g : Gauges) (i : Nat) (v : ℚ) : Gauges :=
  fun j => if j = i then some v else g j

/-- Whether a fetch outcome is a success. -/
def isOkB : Except Unit ℚ → Bool
  | Except.ok _ => true
  | Except.error _ => false

/-- One step of the datapoint loop (`main.py` lines 117-123): a successful
fetch stores the value in the gauge; a failed fetch leaves the gauge
untouched and increments `failed_metrics`. -/
def stepDP (fetch : Nat → Except Unit ℚ) (acc : Gauges × Nat) (i : Nat) :
    Gauges × Nat :=
  match fetch i with
  | Except.ok v => (setG acc.1 i v, acc.2)
  | Except.error _ => (acc.1, acc.2 + 1)

/-- The datapoint loop run over a list of ids. -/
def runDPs (fetch : Nat → Except Unit ℚ) (l : List Nat) (acc : Gauges × Nat) :
    Gauges × Nat :=
  l.foldl (stepDP fetch) acc

/-- The full `for item_id, metric in DATAPOINTS.items()` loop of one cycle
(`main.py` lines 117-123), starting from gauge state `g` with
`failed_metrics = 0`.  The fetch outcome for each id is given by `fetch`. -/
def pollDatapoints (fetch : Nat → Except Unit ℚ) (g : Gauges) : Gauges × Nat :=
  runDPs fetch DATAPOINT_IDS (g, 0)

/-! ## One iteration of the scheduler loop body -/

/-- What a poll cycle encounters after `session = requests.Session()`:
either `owz_login` returns `False`, or an unexpected exception reaches the
outer `except` of the loop body, or login succeeds and each datapoint's
fetch outcome is given by a function. -/
inductive CycleEvent where
  | loginFail : CycleEvent
  | unexpected : String → CycleEvent
  | normal : (Nat → Except Unit ℚ) → CycleEvent

/-- The end-of-cycle log line (`main.py` lines 125-128): either
"Successfully scraped all metrics" or "Failed to scrape k/n metrics". -/
inductive Summary where
  | allOk : Summary
  | someFailed : Nat → Nat → Summary
deriving DecidableEq

/-- The sleep time computed at `main.py` line 135:
`max(APP_INTERVAL - duration, 0)`. -/
def sleepTimeOf (interval : ℤ) (dur : ℚ) : ℚ :=
  max ((interval : ℚ) - dur) 0

/-- The end-of-cycle sleep actually performed (`main.py` lines 137-138):
executed only when the computed sleep time is positive and the `running`
flag still holds at the check. -/
def endSleepOf (interval : ℤ) (dur : ℚ) (runningAtCheck : Bool) : Option ℚ :=
  if 0 < sleepTimeOf interval dur ∧ runningAtCheck = true
  then some (sleepTimeOf interval dur) else none

/-- Observable outcome of one pass through the `while running` body
(`main.py` lines 104-138). -/
structure IterOut where
  gauges : Gauges
  failedCount : Nat
  fetchAttempted : Bool
  summary : Option Summary
  unexpectedLogged : Bool
  loginFailSleep : Option ℤ
  endSleep : Option ℚ

/-- One pass through the loop body (`main.py` lines 104-138).  `dur` is
the wall-clock duration the cycle consumed and `runningAtCheck` the value
of `running` when control reaches the sleep guard at line 137.
A failed login logs, sleeps `min(APP_INTERVAL, 60)` and `continue`s,
skipping the end-of-cycle sleep; an unexpected exception is caught at the
outer `except`, logged, and falls through to the sleep computation with
the gauges untouched; otherwise the datapoint loop runs and the summary
is logged. -/
def loopBody (interval : ℤ) (ev : CycleEvent) (dur : ℚ)
    (runningAtCheck : Bool) (g : Gauges) : IterOut :=
  match ev with
  | CycleEvent.loginFail =>
      { gauges := g, failedCount := 0, fetchAttempted := false,
        summary := none, unexpectedLogged := false,
        loginFailSleep := some (min interval 60), endSleep := none }
  | CycleEvent.unexpected _ =>
      { gauges := g, failedCount := 0, fetchAttempted := false,
        summary := none, unexpectedLogged := true,
        loginFailSleep := none,
        endSleep := endSleepOf interval dur runningAtCheck }
  | CycleEvent.normal fetch =>
      let p := pollDatapoints fetch g
      { gauges := p.1, failedCount := p.2, fetchAttempted := true,
        summary := some (if p.2 = 0 then Summary.allOk
                         else Summary.someFailed p.2 DATAPOINT_IDS.length),
        unexpectedLogged := false, loginFailSleep := none,
        endSleep := endSleepOf interval dur runningAtCheck }

/-! ## The scheduler loop and process lifecycle -/

/-- `signal_handler` (`main.py` lines 47-51): whatever the previous value
of the `running` flag, a delivered SIGINT/SIGTERM sets it to `False`. -/
def signal_handler (_running : Bool) : Bool := false

/-- When, during one loop iteration, a stop signal is delivered:
never, during the cycle work (before the sleep guard at line 137 is
evaluated), or while the end-of-cycle sleep is in progress (after the
guard; per PEP 475 `time.sleep` completes its full duration). -/
inductive SigTime where
  | noSignal : SigTime
  | duringCycle : SigTime
  | duringSleep : SigTime
deriving DecidableEq

/-- Environment of one loop iteration: the cycle event, the cycle's
duration, and whether/when a stop signal arrives during it. -/
structure IterInput where
  ev : CycleEvent
  dur : ℚ
  sig : SigTime

/-- The `running` flag observed by the `while` condition after an
iteration with the given signal timing. -/
def runningAfter : SigTime → Bool
  | SigTime.noSignal => true
  | SigTime.duringCycle => signal_handler true
  | SigTime.duringSleep => signal_handler true

/-- The `running` flag observed by the sleep guard (`main.py` line 137)
within an iteration: already `false` when the signal arrived during the
cycle work, still `true` otherwise. -/
def runningAtCheckOf : SigTime → Bool
  | SigTime.duringCycle => signal_handler true
  | _ => true

/-- The `while running` loop (`main.py` lines 104-138), starting with
`running = True`, driven by a finite trace of iteration environments.
Returns the final gauge state and the outcomes of the iterations actually
executed; once an iteration observes a stop signal, the remaining inputs
are never reached. -/
def schedRun (interval : ℤ) : List IterInput → Gauges → Gauges × List IterOut
  | [], g => (g, [])
  | inp :: rest, g =>
      let out := loopBody interval inp.ev inp.dur (runningAtCheckOf inp.sig) g
      if runningAfter inp.sig = true then
        let r := schedRun interval rest out.gauges
        (r.1, out :: r.2)
      else
        (out.gauges, [out])

/-- Observable outcome of a terminating run of `main`
(`main.py` lines 91-140). -/
structure MainResult where
  finalGauges : Gauges
  iters : List IterOut
  shutdownLogged : Bool
  exitCode : Nat

/-- A terminating run of `main`: the loop runs, then
"Exporter shutdown complete" is logged and `main` returns, so the
`__main__` guard exits with status 0 (`main.py` lines 140-151). -/
def mainRun (interval : ℤ) (inputs : List IterInput) (g : Gauges) :
    MainResult :=
  let r := schedRun interval inputs g
  { finalGauges := r.1, iters := r.2, shutdownLogged := true, exitCode := 0 }

/-! ## Startup configuration (`main.py` lines 17-23) -/

/-- The environment variables read with `os.environ[...]`, whose absence
raises `KeyError`. -/
def requiredKeys : List String := ["APP_BASE_URL", "APP_USERNAME", "APP_PASSWORD"]

/-- The configuration assembled at module load (`main.py` lines 17-23). -/
structure Config where
  baseUrl : String
  username : String
  password : String
  logLevel : String
  interval : ℤ
  promPort : ℤ

/-- How startup can fail while reading configuration: a required key is
missing (`KeyError`), or a numeric setting does not parse (`ValueError`
from `int(...)`). -/
inductive StartupError where
  | missingKey : String → StartupError
  | badInt : String → String → StartupError
deriving DecidableEq

/-- Decimal digits to their integer value, `none` when the list is empty
or contains a non-digit. -/
def digitsToInt (ds : List Char) : Option ℤ :=
  if ds ≠ [] ∧ ds.all Char.isDigit
  then some (ds.foldl (fun acc c => acc * 10 + ((c.toNat : ℤ) - 48)) 0)
  else none

/-- Model of Python `int(s)` on the strings relevant here: an optional
sign followed by decimal digits (Python additionally strips surrounding
whitespace and allows underscore separators; no claim depends on those).
`none` models the `ValueError` that `int` raises otherwise. -/
def pyInt (s : String) : Option ℤ :=
  match s.toList with
  | '-' :: rest => (digitsToInt rest).map (fun n => -n)
  | '+' :: rest => digitsToInt rest
  | chars => digitsToInt chars

/-- `os.environ[k]`: the value, or `KeyError`. -/
def getRequired (env : String → Option String) (k : String) :
    Except StartupError String :=
  match env k with
  | some v => Except.ok v
  | none => Except.error (StartupError.missingKey k)

/-- `int(os.environ.get(k, d))`: parse the value (or the default) as an
integer, raising `ValueError` when it does not parse. -/
def getIntDefault (env : String → Option String) (k d : String) :
    Except StartupError ℤ :=
  match pyInt ((env k).getD d) with
  | some n => Except.ok n
  | none => Except.error (StartupError.badInt k ((env k).getD d))

/-- The module-level configuration reading (`main.py` lines 17-23). -/
def readConfig (env : String → Option String) : Except StartupError Config := do
  let b ← getRequired env "APP_BASE_URL"
  let u ← getRequired env "APP_USERNAME"
  let p ← getRequired env "APP_PASSWORD"
  let lvl := (env "APP_LOG_LEVEL").getD "INFO"
  let itv ← getIntDefault env "APP_INTERVAL" "120"
  let port ← getIntDefault env "PROMETHEUS_PORT" "9100"
  Except.ok ⟨b, u, p, lvl, itv, port⟩

/-- Exit code of the whole process: configuration reading failure makes
the process die with status 1 (an uncaught exception at module load, or
the `sys.exit(1)` of the `__main__` guard); otherwise `main` runs the
scheduler loop and exits with its status. -/
def processRun (env : String → Option String) (inputs : List IterInput)
    (g : Gauges) : Nat :=
  match readConfig env with
  | Except.error _ => 1
  | Except.ok cfg => (mainRun cfg.interval inputs g).exitCode

/-! ## Helper lemmas about the datapoint fold -/

lemma runDPs_nil (fetch : Nat → Except Unit ℚ) (acc : Gauges × Nat) :
    runDPs fetch [] acc = acc := rfl

lemma runDPs_cons (fetch : Nat → Except Unit ℚ) (i : Nat) (t : List Nat)
    (acc : Gauges × Nat) :
    runDPs fetch (i :: t) acc = runDPs fetch t (stepDP fetch acc i) := rfl

lemma stepDP_fst_ne (fetch : Nat → Except Unit ℚ) (acc : Gauges × Nat)
    (i j : Nat) (h : j ≠ i) : (stepDP fetch acc i).1 j = acc.1 j := by
  cases hfi : fetch i <;> simp [stepDP, hfi, setG, h]

lemma runDPs_not_mem (fetch : Nat → Except Unit ℚ) {l : List Nat} {j : Nat}
    (hj : j ∉ l) : ∀ acc : Gauges × Nat, (runDPs fetch l acc).1 j = acc.1 j := by
  induction l with
  | nil => intro acc; rfl
  | cons i t ih =>
    intro acc
    rw [runDPs_cons]
    have hji : j ≠ i := fun h => hj (h ▸ List.mem_cons_self i t)
    have hjt : j ∉ t := fun h => hj (List.mem_cons_of_mem i h)
    rw [ih hjt]
    exact stepDP_fst_ne fetch acc i j hji

lemma runDPs_error (fetch : Nat → Except Unit ℚ) {j : Nat}
    (hj : fetch j = Except.error ()) (l : List Nat) :
    ∀ acc : Gauges × Nat, (runDPs fetch l acc).1 j = acc.1 j := by
  induction l with
  | nil => intro acc; rfl
  | cons i t ih =>
    intro acc
    rw [runDPs_cons, ih]
    by_cases hji : j = i
    · subst hji; simp [stepDP, hj]
    · exact stepDP_fst_ne fetch acc i j hji

lemma runDPs_ok_mem (fetch : Nat → Except Unit ℚ) {j : Nat} {v : ℚ}
    (hj : fetch j = Except.ok v) : ∀ l : List Nat, j ∈ l →
    ∀ acc : Gauges × Nat, (runDPs fetch l acc).1 j = some v := by
  intro l
  induction l with
  | nil => intro h; exact absurd h (List.not_mem_nil j)
  | cons i t ih =>
    intro hm acc
    rw [runDPs_cons]
    by_cases hjt : j ∈ t
    · exact ih hjt _
    · have hji : j = i := by
        rcases List.mem_cons.mp hm with h | h
        · exact h
        · exact absurd h hjt
      subst hji
      rw [runDPs_not_mem fetch hjt]
      simp [stepDP, hj, setG]

lemma stepDP_snd (fetch : Nat → Except Unit ℚ) (acc : Gauges × Nat) (i : Nat) :
    (stepDP fetch acc i).2
      = acc.2 + (if isOkB (fetch i) = true then 0 else 1) := by
  cases hfi : fetch i <;> simp [stepDP, hfi, isOkB]

lemma runDPs_count (fetch : Nat → Except Unit ℚ) (l : List Nat) :
    ∀ acc : Gauges × Nat, (runDPs fetch l acc).2
      = acc.2 + l.countP (fun i => !isOkB (fetch i)) := by
  induction l with
  | nil => intro acc; simp [runDPs_nil]
  | cons i t ih =>
    intro acc
    rw [runDPs_cons, ih, List.countP_cons, stepDP_snd]
    cases hfi : fetch i with
    | ok v => simp [isOkB, hfi]
    | error e =>
      simp [isOkB, hfi]
      omega

lemma countP_one {p : Nat → Bool} : ∀ {l : List Nat}, l.Nodup → ∀ {X : Nat},
    X ∈ l → p X = true → (∀ y ∈ l, y ≠ X → p y = false) → l.countP p = 1 := by
  intro l
  induction l with
  | nil => intro _ X hX; exact absurd hX (List.not_mem_nil X)
  | cons i t ih =>
    intro hnd X hX hpX hother
    have hnd' := List.nodup_cons.mp hnd
    rw [List.countP_cons]
    rcases List.mem_cons.mp hX with hXi | hXt
    · subst hXi
      have ht0 : t.countP p = 0 := by
        apply List.countP_eq_zero.mpr
        intro y hy
        have hyX : y ≠ X := fun h => hnd'.1 (h ▸ hy)
        simp [hother y (List.mem_cons_of_mem X hy) hyX]
      simp [ht0, hpX]
    · have hiX : i ≠ X := fun h => hnd'.1 (h ▸ hXt)
      have hpi : p i = false := hother i (List.mem_cons_self i t) hiX
      have ht1 : t.countP p = 1 :=
        ih hnd'.2 hXt hpX (fun y hy hyX => hother y (List.mem_cons_of_mem i hy) hyX)
      simp [ht1, hpi]

lemma datapoint_ids_eq :
    DATAPOINT_IDS = [2420, 2422, 2425, 2433, 2436, 2438, 2440] := rfl

lemma datapoint_ids_nodup : DATAPOINT_IDS.Nodup := by decide

lemma pollDatapoints_error (fetch : Nat → Except Unit ℚ) (g : Gauges) {j : Nat}
    (hj : fetch j = Except.error ()) : (pollDatapoints fetch g).1 j = g j :=
  runDPs_error fetch hj DATAPOINT_IDS (g, 0)

lemma pollDatapoints_ok (fetch : Nat → Except Unit ℚ) (g : Gauges) {j : Nat}
    {v : ℚ} (hj : fetch j = Except.ok v) (hm : j ∈ DATAPOINT_IDS) :
    (pollDatapoints fetch g).1 j = some v :=
  runDPs_ok_mem fetch hj DATAPOINT_IDS hm (g, 0)

lemma pollDatapoints_not_mem (fetch : Nat → Except Unit ℚ) (g : Gauges)
    {j : Nat} (hj : j ∉ DATAPOINT_IDS) : (pollDatapoints fetch g).1 j = g j :=
  runDPs_not_mem fetch hj (g, 0)

lemma pollDatapoints_count (fetch : Nat → Except Unit ℚ) (g : Gauges) :
    (pollDatapoints fetch g).2
      = DATAPOINT_IDS.countP (fun i => !isOkB (fetch i)) := by
  have h := runDPs_count fetch DATAPOINT_IDS (g, 0)
  simpa [pollDatapoints] using h

/-! ## Claim C1: partial-failure isolation -/

/-- C1: in a poll cycle after a successful login, if the fetch for one
datapoint X fails while every other configured datapoint's fetch
succeeds, then the gauge for X keeps its previous stored value (remaining
unset if it was never set), every other configured gauge is updated to
its fetched value (processing is not aborted by the failure), gauges
outside the registry are untouched, and the cycle summary reports exactly
1 failure out of the 7 configured datapoints. -/
theorem c1_partial_failure_isolation (fetch : Nat → Except Unit ℚ)
    (g : Gauges) (X : Nat) (hX : X ∈ DATAPOINT_IDS)
    (hfail : fetch X = Except.error ())
    (hok : ∀ y ∈ DATAPOINT_IDS, y ≠ X → ∃ v, fetch y = Except.ok v) :
    (pollDatapoints fetch g).1 X = g X ∧
    (∀ y ∈ DATAPOINT_IDS, y ≠ X → ∀ v, fetch y = Except.ok v →
        (pollDatapoints fetch g).1 y = some v) ∧
    (∀ j, j ∉ DATAPOINT_IDS → (pollDatapoints fetch g).1 j = g j) ∧
    (pollDatapoints fetch g).2 = 1 ∧
    (∀ (interval : ℤ) (dur : ℚ) (r : Bool),
      (loopBody interval (CycleEvent.normal fetch) dur r g).summary
        = some (Summary.someFailed 1 7)) := by
  have hcount : (pollDatapoints fetch g).2 = 1 := by
    rw [pollDatapoints_count]
    apply countP_one datapoint_ids_nodup hX
    · simp [hfail, isOkB]
    · intro y hy hyX
      obtain ⟨v, hv⟩ := hok y hy hyX
      simp [hv, isOkB]
  refine ⟨pollDatapoints_error fetch g hfail, ?_, ?_, hcount, ?_⟩
  · intro y hy hyX v hv
    exact pollDatapoints_ok fetch g hv hy
  · intro j hj
    exact pollDatapoints_not_mem fetch g hj
  · intro interval dur r
    simp [loopBody, hcount, datapoint_ids_eq]

/-- Fetch environment in which exactly datapoint 2420 fails. -/
def fetchOneFail : Nat → Except Unit ℚ :=
  fun i => if i = 2420 then Except.error () else Except.ok 1

/-- The all-unset initial gauge state. -/
def g0 : Gauges := fun _ => none

theorem c1_partial_failure_isolation_witness :
    (pollDatapoints fetchOneFail g0).1 2420 = none ∧
    (pollDatapoints fetchOneFail g0).2 = 1 := by
  have h := c1_partial_failure_isolation fetchOneFail g0 2420 (by decide) rfl
    (fun y _ hne => ⟨1, by simp [fetchOneFail, hne]⟩)
  exact ⟨h.1, h.2.2.2.1⟩

/-! ## Claim C2: fully successful cycle -/

/-- C2: in a poll cycle in which login succeeds and every fetch succeeds,
each configured gauge is set to exactly the value returned by the fetch
for its datapoint id, the failure tally is 0, and the cycle summary
reports full success. -/
theorem c2_full_success (fetch : Nat → Except Unit ℚ) (g : Gauges)
    (hok : ∀ i ∈ DATAPOINT_IDS, ∃ v, fetch i = Except.ok v) :
    (∀ i ∈ DATAPOINT_IDS, ∀ v, fetch i = Except.ok v →
        (pollDatapoints fetch g).1 i = some v) ∧
    (pollDatapoints fetch g).2 = 0 ∧
    (∀ (interval : ℤ) (dur : ℚ) (r : Bool),
      (loopBody interval (CycleEvent.normal fetch) dur r g).summary
        = some Summary.allOk) := by
  have hcount : (pollDatapoints fetch g).2 = 0 := by
    rw [pollDatapoints_count]
    apply List.countP_eq_zero.mpr
    intro i hi
    obtain ⟨v, hv⟩ := hok i hi
    simp [hv, isOkB]
  refine ⟨fun i hi v hv => pollDatapoints_ok fetch g hv hi, hcount, ?_⟩
  intro interval dur r
  simp [loopBody, hcount]

/-- Fetch environment in which every datapoint succeeds with its own id
as value. -/
def fetchAllOk : Nat → Except Unit ℚ := fun i => Except.ok (i : ℚ)

theorem c2_full_success_witness :
    (pollDatapoints fetchAllOk g0).1 2420 = some 2420 ∧
    (pollDatapoints fetchAllOk g0).2 = 0 := by
  have h := c2_full_success fetchAllOk g0 (fun i _ => ⟨(i : ℚ), rfl⟩)
  exact ⟨h.1 2420 (by decide) 2420 rfl, h.2.1⟩

/-! ## Claim C8: idempotence of successful cycles -/

/-- C8: running two consecutive fully successful poll cycles with
unchanged remote values leaves every gauge unchanged after the second
cycle compared with after the first, and both cycles tally zero failures
and log the fully-successful summary. -/
theorem c8_idempotent_cycles (fetch : Nat → Except Unit ℚ) (g : Gauges)
    (hok : ∀ i ∈ DATAPOINT_IDS, ∃ v, fetch i = Except.ok v) :
    (pollDatapoints fetch (pollDatapoints fetch g).1).1
        = (pollDatapoints fetch g).1 ∧
    (pollDatapoints fetch g).2 = 0 ∧
    (pollDatapoints fetch (pollDatapoints fetch g).1).2 = 0 ∧
    (∀ (interval : ℤ) (dur : ℚ) (r : Bool),
      (loopBody interval (CycleEvent.normal fetch) dur r g).summary
          = some Summary.allOk ∧
      (loopBody interval (CycleEvent.normal fetch) dur r
          (pollDatapoints fetch g).1).summary = some Summary.allOk) := by
  have hcount : ∀ g' : Gauges, (pollDatapoints fetch g').2 = 0 := by
    intro g'
    rw [pollDatapoints_count]
    apply List.countP_eq_zero.mpr
    intro i hi
    obtain ⟨v, hv⟩ := hok i hi
    simp [hv, isOkB]
  refine ⟨?_, hcount g, hcount _, ?_⟩
  · funext j
    by_cases hj : j ∈ DATAPOINT_IDS
    · obtain ⟨v, hv⟩ := hok j hj
      rw [pollDatapoints_ok fetch _ hv hj, pollDatapoints_ok fetch g hv hj]
    · rw [pollDatapoints_not_mem fetch _ hj]
  · intro interval dur r
    constructor <;> simp [loopBody, hcount]

theorem c8_idempotent_cycles_witness :
    (pollDatapoints fetchAllOk (pollDatapoints fetchAllOk g0).1).1
        = (pollDatapoints fetchAllOk g0).1 ∧
    (pollDatapoints fetchAllOk (pollDatapoints fetchAllOk g0).1).2 = 0 := by
  have h := c8_idempotent_cycles fetchAllOk g0 (fun i _ => ⟨(i : ℚ), rfl⟩)
  exact ⟨h.1, h.2.2.1⟩

/-! ## Helper lemmas about the sleep logic and the loop -/

lemma endSleepOf_eq_some {interval : ℤ} {dur : ℚ} {r : Bool} {st : ℚ}
    (h : endSleepOf interval dur r = some st) :
    st = sleepTimeOf interval dur ∧ 0 < st ∧ r = true := by
  unfold endSleepOf at h
  split_ifs at h with hc
  cases h
  exact ⟨rfl, hc.1, hc.2⟩

lemma endSleepOf_false (interval : ℤ) (dur : ℚ) :
    endSleepOf interval dur false = none := by
  unfold endSleepOf
  simp

lemma sleepTimeOf_eq_zero {interval : ℤ} {dur : ℚ}
    (h : (interval : ℚ) ≤ dur) : sleepTimeOf interval dur = 0 := by
  unfold sleepTimeOf
  exact max_eq_right (by linarith)

lemma endSleepOf_none_of_late {interval : ℤ} {dur : ℚ} (r : Bool)
    (h : (interval : ℚ) ≤ dur) : endSleepOf interval dur r = none := by
  unfold endSleepOf
  rw [sleepTimeOf_eq_zero h]
  simp

lemma loopBody_endSleep_cases (interval : ℤ) (ev : CycleEvent) (dur : ℚ)
    (r : Bool) (g : Gauges) :
    (loopBody interval ev dur r g).endSleep = none ∨
    (loopBody interval ev dur r g).endSleep = endSleepOf interval dur r := by
  cases ev with
  | loginFail => exact Or.inl rfl
  | unexpected m => exact Or.inr rfl
  | normal fetch => exact Or.inr rfl

lemma loopBody_gauges_not_mem (interval : ℤ) (ev : CycleEvent) (dur : ℚ)
    (r : Bool) (g : Gauges) {j : Nat} (hj : j ∉ DATAPOINT_IDS) :
    (loopBody interval ev dur r g).gauges j = g j := by
  cases ev with
  | loginFail => rfl
  | unexpected m => rfl
  | normal fetch => exact pollDatapoints_not_mem fetch g hj

lemma schedRun_gauges_not_mem (interval : ℤ) {j : Nat}
    (hj : j ∉ DATAPOINT_IDS) : ∀ (inputs : List IterInput) (g : Gauges),
    (schedRun interval inputs g).1 j = g j := by
  intro inputs
  induction inputs with
  | nil => intro g; rfl
  | cons inp rest ih =>
    intro g
    by_cases hr : runningAfter inp.sig = true <;>
      simp [schedRun, hr, ih, loopBody_gauges_not_mem interval inp.ev inp.dur
        (runningAtCheckOf inp.sig) g hj]

/-! ## Claim C3: failed login skips the cycle and sleeps a short bound -/

/-- C3: in a poll cycle in which login fails, no datapoint is fetched and
no gauge is updated, the cycle sleeps `min(APP_INTERVAL, 60)` seconds and
skips the end-of-cycle sleep (the `continue`), so the next cycle start is
delayed by the lesser of the configured interval and 60 seconds, which is
at most the configured interval and at most 60. -/
theorem c3_login_failure_short_sleep (interval : ℤ) (dur : ℚ) (r : Bool)
    (g : Gauges) :
    (loopBody interval CycleEvent.loginFail dur r g).gauges = g ∧
    (loopBody interval CycleEvent.loginFail dur r g).fetchAttempted = false ∧
    (loopBody interval CycleEvent.loginFail dur r g).loginFailSleep
        = some (min interval 60) ∧
    (loopBody interval CycleEvent.loginFail dur r g).endSleep = none ∧
    min interval 60 ≤ interval ∧ min interval 60 ≤ 60 :=
  ⟨rfl, rfl, rfl, rfl, min_le_left _ _, min_le_right _ _⟩

/-! ## Claim C4: the end-of-cycle sleep formula -/

/-- C4: the end-of-cycle sleep duration is computed as
`max(APP_INTERVAL - duration, 0)`, which is never negative; whenever the
sleep is actually executed its duration equals that formula and is
positive; and when the cycle consumed at least the configured interval no
end-of-cycle sleep is performed, so the next cycle starts immediately. -/
theorem c4_sleep_cadence (interval : ℤ) (dur : ℚ) (ev : CycleEvent)
    (r : Bool) (g : Gauges) :
    0 ≤ sleepTimeOf interval dur ∧
    sleepTimeOf interval dur = max ((interval : ℚ) - dur) 0 ∧
    (∀ st : ℚ, (loopBody interval ev dur r g).endSleep = some st →
        st = sleepTimeOf interval dur ∧ 0 < st) ∧
    ((interval : ℚ) ≤ dur → (loopBody interval ev dur r g).endSleep = none) := by
  refine ⟨le_max_right _ _, rfl, ?_, ?_⟩
  · intro st hst
    rcases loopBody_endSleep_cases interval ev dur r g with hc | hc
    · rw [hc] at hst
      exact absurd hst (by simp)
    · rw [hc] at hst
      obtain ⟨h1, h2, _⟩ := endSleepOf_eq_some hst
      exact ⟨h1, h2⟩
  · intro hlate
    rcases loopBody_endSleep_cases interval ev dur r g with hc | hc
    · exact hc
    · rw [hc]
      exact endSleepOf_none_of_late r hlate

theorem c4_sleep_cadence_witness :
    (0:ℚ) ≤ sleepTimeOf 120 5 ∧ ((115:ℚ) = sleepTimeOf 120 5 ∧ (0:ℚ) < 115) := by
  have h := c4_sleep_cadence 120 5 (CycleEvent.normal fetchAllOk) true g0
  have h115 : sleepTimeOf 120 5 = 115 := by
    unfold sleepTimeOf
    norm_num
  have hend : (loopBody 120 (CycleEvent.normal fetchAllOk) 5 true g0).endSleep
      = some 115 := by
    show endSleepOf 120 5 true = some 115
    unfold endSleepOf
    rw [h115, if_pos ⟨by norm_num, rfl⟩]
  exact ⟨h.1, h.2.2.1 115 hend⟩

/-! ## Claim C10: the end-of-cycle sleep guard -/

/-- C10: when the `running` flag is already `false` by the time the
end-of-cycle sleep guard is reached, the sleep is skipped entirely and
the loop exits immediately, performing no further iteration; the
end-of-cycle sleep is executed only when the computed sleep time is
positive and the `running` flag is still `true`. -/
theorem c10_sleep_only_when_running (interval : ℤ) (ev : CycleEvent)
    (dur : ℚ) (g : Gauges) :
    (loopBody interval ev dur false g).endSleep = none ∧
    (∀ (r : Bool) (st : ℚ),
        (loopBody interval ev dur r g).endSleep = some st → 0 < st ∧ r = true) ∧
    (∀ (rest : List IterInput) (g' : Gauges),
        (schedRun interval (⟨ev, dur, SigTime.duringCycle⟩ :: rest) g').2
          = [loopBody interval ev dur false g']) := by
  refine ⟨?_, ?_, ?_⟩
  · rcases loopBody_endSleep_cases interval ev dur false g with hc | hc
    · exact hc
    · rw [hc]
      exact endSleepOf_false interval dur
  · intro r st hst
    rcases loopBody_endSleep_cases interval ev dur r g with hc | hc
    · rw [hc] at hst
      exact absurd hst (by simp)
    · rw [hc] at hst
      obtain ⟨_, h2, h3⟩ := endSleepOf_eq_some hst
      exact ⟨h2, h3⟩
  · intro rest g'
    simp [schedRun, runningAfter, signal_handler, runningAtCheckOf]

theorem c10_sleep_only_when_running_witness :
    (loopBody 120 (CycleEvent.normal fetchAllOk) 5 false g0).endSleep = none ∧
    ((0:ℚ) < 115 ∧ true = true) := by
  have h := c10_sleep_only_when_running 120 (CycleEvent.normal fetchAllOk) 5 g0
  refine ⟨h.1, h.2.1 true 115 ?_⟩
  show endSleepOf 120 5 true = some 115
  have h115 : sleepTimeOf 120 5 = 115 := by
    unfold sleepTimeOf
    norm_num
  unfold endSleepOf
  rw [h115, if_pos ⟨by norm_num, rfl⟩]

/-! ## Claim C7: graceful shutdown -/

/-- C7: once a stop signal has been delivered during an iteration (the
signal handler sets the `running` flag to `false`), the scheduler loop
performs no further iteration and exits with that iteration's outcome; a
signal arriving during the end-of-cycle sleep does not change that
iteration's sleep behaviour (the sleep completes as if no signal had
arrived); and the process then logs shutdown completion and exits with
status 0. -/
theorem c7_shutdown_clean_exit (interval : ℤ) (g : Gauges) (inp : IterInput)
    (rest : List IterInput) (h : inp.sig ≠ SigTime.noSignal) :
    runningAfter inp.sig = signal_handler true ∧
    (schedRun interval (inp :: rest) g).2
        = [loopBody interval inp.ev inp.dur (runningAtCheckOf inp.sig) g] ∧
    (schedRun interval (inp :: rest) g).1
        = (loopBody interval inp.ev inp.dur (runningAtCheckOf inp.sig) g).gauges ∧
    (inp.sig = SigTime.duringSleep →
      (loopBody interval inp.ev inp.dur (runningAtCheckOf inp.sig) g).endSleep
        = (loopBody interval inp.ev inp.dur true g).endSleep) ∧
    (mainRun interval (inp :: rest) g).shutdownLogged = true ∧
    (mainRun interval (inp :: rest) g).exitCode = 0 := by
  obtain ⟨ev, dur, sig⟩ := inp
  cases sig with
  | noSignal => exact absurd rfl h
  | duringCycle =>
    refine ⟨rfl, ?_, ?_, ?_, rfl, rfl⟩
    · simp [schedRun, runningAfter, signal_handler]
    · simp [schedRun, runningAfter, signal_handler]
    · intro hd
      cases hd
  | duringSleep =>
    refine ⟨rfl, ?_, ?_, fun _ => rfl, rfl, rfl⟩
    · simp [schedRun, runningAfter, signal_handler]
    · simp [schedRun, runningAfter, signal_handler]

/-- An iteration during whose end-of-cycle sleep a stop signal arrives. -/
def stopIter : IterInput := ⟨CycleEvent.loginFail, 0, SigTime.duringSleep⟩

theorem c7_shutdown_clean_exit_witness :
    (schedRun 120 [stopIter] g0).2
        = [loopBody 120 CycleEvent.loginFail 0 true g0] ∧
    (mainRun 120 [stopIter] g0).exitCode = 0 := by
  have h := c7_shutdown_clean_exit 120 g0 stopIter [] (by decide)
  exact ⟨h.2.1, h.2.2.2.2.2⟩

/-! ## Claim C9: the registry key set is fixed -/

/-- C9: the datapoint registry is a module-level constant of 7 distinct
ids; every poll cycle folds over exactly this id list, and no operation
of the cycle or of the whole scheduler run ever writes a gauge outside
this key set, for any number of iterations. -/
theorem c9_registry_key_set_fixed (j : Nat) (hj : j ∉ DATAPOINT_IDS) :
    DATAPOINT_IDS.Nodup ∧ DATAPOINT_IDS.length = 7 ∧
    (∀ (fetch : Nat → Except Unit ℚ) (g : Gauges),
        (pollDatapoints fetch g).1 j = g j) ∧
    (∀ (interval : ℤ) (ev : CycleEvent) (dur : ℚ) (r : Bool) (g : Gauges),
        (loopBody interval ev dur r g).gauges j = g j) ∧
    (∀ (interval : ℤ) (inputs : List IterInput) (g : Gauges),
        (schedRun interval inputs g).1 j = g j) := by
  refine ⟨datapoint_ids_nodup, rfl, ?_, ?_, ?_⟩
  · intro fetch g
    exact pollDatapoints_not_mem fetch g hj
  · intro interval ev dur r g
    exact loopBody_gauges_not_mem interval ev dur r g hj
  · intro interval inputs g
    exact schedRun_gauges_not_mem interval hj inputs g

theorem c9_registry_key_set_fixed_witness :
    (pollDatapoints fetchAllOk g0).1 9999 = none ∧ DATAPOINT_IDS.length = 7 := by
  have h := c9_registry_key_set_fixed 9999 (by decide)
  exact ⟨h.2.2.1 fetchAllOk g0, h.2.1⟩

/-! ## Claim C6: exception containment and fatality -/

/-- An environment with every required setting present but a non-numeric
`APP_INTERVAL`: module load raises `ValueError` from `int(...)` and the
process dies, although no required setting is missing. -/
def envBadInterval : String → Option String := fun k =>
  if k = "APP_BASE_URL" then some "https://owz.example"
  else if k = "APP_USERNAME" then some "user"
  else if k = "APP_PASSWORD" then some "secret"
  else if k = "APP_INTERVAL" then some "two minutes"
  else none

/-- C6 is refuted as stated: with every required configuration setting
present but `APP_INTERVAL` set to a non-numeric string, startup is fatal
(exit status 1), so a missing required configuration setting is not the
only fatal condition. -/
theorem c6_counterexample :
    processRun envBadInterval [] g0 = 1 ∧
    readConfig envBadInterval
        = Except.error (StartupError.badInt "APP_INTERVAL" "two minutes") ∧
    (envBadInterval "APP_BASE_URL").isSome = true ∧
    (envBadInterval "APP_USERNAME").isSome = true ∧
    (envBadInterval "APP_PASSWORD").isSome = true :=
  ⟨rfl, rfl, rfl, rfl, rfl⟩

/-- C6 (amended): any unexpected exception raised during a poll cycle is
caught at the top level of the loop body, logged, and treated as a failed
cycle that leaves the gauges untouched, and the scheduler loop continues
with the next iteration; the loop itself never terminates the process
abnormally (a completed run exits 0); fatal exits happen only at startup,
when reading the configuration fails (a missing required setting or an
unparsable numeric setting). -/
theorem c6_exception_containment (env : String → Option String)
    (inputs : List IterInput) (g : Gauges) (interval : ℤ) (m : String)
    (dur : ℚ) (rest : List IterInput) (g' : Gauges) :
    (∀ e, readConfig env = Except.error e → processRun env inputs g = 1) ∧
    (∀ cfg, readConfig env = Except.ok cfg → processRun env inputs g = 0) ∧
    ((schedRun interval
        ((⟨CycleEvent.unexpected m, dur, SigTime.noSignal⟩ : IterInput) :: rest) g').2
      = loopBody interval (CycleEvent.unexpected m) dur true g'
          :: (schedRun interval rest g').2) ∧
    ((schedRun interval
        ((⟨CycleEvent.unexpected m, dur, SigTime.noSignal⟩ : IterInput) :: rest) g').1
      = (schedRun interval rest g').1) ∧
    (loopBody interval (CycleEvent.unexpected m) dur true g').gauges = g' ∧
    (loopBody interval (CycleEvent.unexpected m) dur true g').unexpectedLogged
        = true := by
  refine ⟨?_, ?_, ?_, ?_, rfl, rfl⟩
  · intro e he
    unfold processRun
    rw [he]
  · intro cfg hc
    unfold processRun
    rw [hc]
    rfl
  · have hg : (loopBody interval (CycleEvent.unexpected m) dur true g').gauges
        = g' := rfl
    simp [schedRun, runningAfter, runningAtCheckOf, hg]
  · have hg : (loopBody interval (CycleEvent.unexpected m) dur true g').gauges
        = g' := rfl
    simp [schedRun, runningAfter, runningAtCheckOf, hg]

/-- An environment with exactly the three required settings present. -/
def envGood : String → Option String := fun k =>
  if k = "APP_BASE_URL" then some "https://owz.example"
  else if k = "APP_USERNAME" then some "user"
  else if k = "APP_PASSWORD" then some "secret"
  else none

theorem c6_exception_containment_witness :
    processRun envGood [] g0 = 0 ∧
    (loopBody 120 (CycleEvent.unexpected "boom") 0 true g0).gauges = g0 := by
  have h := c6_exception_containment envGood [] g0 120 "boom" 0 [] g0
  exact ⟨h.2.1 ⟨"https://owz.example", "user", "secret", "INFO", 120, 9100⟩ rfl,
    h.2.2.2.2.1⟩

/-! ## Claim C5: fetch error classification -/

/-- A response with redirect-class status 304 and a well-formed body:
`raise_for_status` raises only for statuses in `[400, 600)`, so this
non-2xx response is processed and its value returned. -/
def resp304 : HttpResponse := ⟨304, some (Json.obj [("value", Json.num 5)])⟩

/-- C5 is refuted as stated: for the non-2xx status 304 with a valid JSON
body carrying a numeric `value`, `owz_get_dp` returns the value instead
of an error, so "error iff non-2xx or malformed" fails in the non-2xx
direction. -/
theorem c5_counterexample :
    owz_get_dp (fun _ => none) resp304 = Except.ok 5 ∧
    ¬(200 ≤ resp304.status ∧ resp304.status < 300) := by
  constructor
  · rfl
  · decide

/-- C5 (amended): for every received response, `owz_get_dp` returns an
error if and only if the HTTP status is 4xx or 5xx (the statuses
`raise_for_status` raises for), the body is not valid JSON, the JSON
`value` field is absent or null (including a non-object body), or the
value cannot be converted to a float; otherwise it returns the `value`
field converted to a float, accepting both string and number (and
boolean) JSON representations. -/
theorem c5_fetch_error_classification (sf : String → Option ℚ)
    (resp : HttpResponse) :
    (owz_get_dp sf resp = Except.error () ↔
      (400 ≤ resp.status ∧ resp.status < 600) ∨ resp.body = none ∨
      (∃ d, resp.body = some d ∧ jsonValueField d = none) ∨
      (∃ d v, resp.body = some d ∧ jsonValueField d = some v ∧
        pyFloat sf v = none)) ∧
    (∀ q : ℚ, owz_get_dp sf resp = Except.ok q ↔
      (¬(400 ≤ resp.status ∧ resp.status < 600) ∧
       ∃ d v, resp.body = some d ∧ jsonValueField d = some v ∧
         pyFloat sf v = some q)) := by
  obtain ⟨s, b⟩ := resp
  by_cases hst : 400 ≤ s ∧ s < 600
  · constructor
    · simp [owz_get_dp, hst]
    · intro q
      simp [owz_get_dp, hst]
  · cases b with
    | none =>
      constructor
      · simp [owz_get_dp, hst]
      · intro q
        simp [owz_get_dp, hst]
    | some d =>
      cases hpg : pyGetValue d with
      | error u =>
        have hjv : jsonValueField d = none := by
          simp [jsonValueField, hpg]
        constructor
        · simp [owz_get_dp, hst, hpg, hjv]
        · intro q
          simp [owz_get_dp, hst, hpg, hjv]
      | ok r0 =>
        have hjv : jsonValueField d = r0 := by
          simp [jsonValueField, hpg]
        cases r0 with
        | none =>
          constructor
          · simp [owz_get_dp, hst, hpg, hjv]
          · intro q
            simp [owz_get_dp, hst, hpg, hjv]
        | some v =>
          cases hpf : pyFloat sf v with
          | none =>
            constructor
            · simp [owz_get_dp, hst, hpg, hjv, hpf]
            · intro q
              simp [owz_get_dp, hst, hpg, hjv, hpf]
          | some q0 =>
            constructor
            · simp [owz_get_dp, hst, hpg, hjv, hpf]
            · intro q
              simp [owz_get_dp, hst, hpg, hjv, hpf, eq_comm]
